import Mathlib

/-
Verification of the doit authentication backend.

Shallow embedding of src/backend/src (models/user.py, models/session.py,
models/verification_token.py, models/password_reset_token.py,
services/password_service.py, services/auth_service.py, api/routes/auth.py,
config.py) into Lean 4.

Modelling conventions:
  - datetime values are Nat, measured in minutes since an arbitrary epoch;
    every call to datetime.utcnow() inside one service call is modelled by a
    single parameter now (the calls happen within microseconds of each other).
  - the SQLAlchemy database session is a DB record of lists of rows; a
    committed mutation of an ORM object is modelled by mapping the list,
    replacing the row whose primary key matches.  A ValueError raised before
    db.commit() leaves the DB unchanged.
  - Argon2 hashing and verification (passlib) are external library calls; they
    are passed in as function parameters pwdHash / pwdVerify, exactly where
    auth_service.py calls self.password_service.hash_password /
    verify_password.
  - freshly generated ids and tokens (uuid4, token_service.generate_token,
    jwt_service.generate_session_token) are passed in as parameters.
  - raising ValueError(msg) is modelled by Except.error of an AuthErr
    constructor, one constructor per distinct message produced by
    auth_service.py.
-/

namespace Auth

/-- Row of the users table (models/user.py).  In addition to the mapped
columns, the field last_login models the plain Python instance attribute that
AuthService.login assigns on success; it is not a column of the model and is
kept separate from the persisted column last_login_at. -/
structure User where
  id : String
  email : String
  password_hash : String
  email_verified : Bool
  is_active : Bool
  is_locked : Bool
  locked_until : Option Nat
  failed_login_attempts : Nat
  last_failed_login : Option Nat
  last_login_at : Option Nat
  last_login : Option Nat
  deriving Repr, DecidableEq

/-- Row of the verification_tokens table (models/verification_token.py). -/
structure VerificationToken where
  id : String
  user_id : String
  token : String
  expires_at : Nat
  is_used : Bool
  used_at : Option Nat
  deriving Repr, DecidableEq

/-- Row of the password_reset_tokens table (models/password_reset_token.py). -/
structure PasswordResetToken where
  id : String
  user_id : String
  token : String
  is_used : Bool
  used_at : Option Nat
  expires_at : Nat
  deriving Repr, DecidableEq

/-- Row of the sessions table (models/session.py). -/
structure SessionRec where
  id : String
  user_id : String
  token : String
  is_active : Bool
  expires_at : Nat
  created_at : Nat
  deriving Repr, DecidableEq

/-- The relational state the AuthService reads and writes. -/
structure DB where
  users : List User
  verification_tokens : List VerificationToken
  password_reset_tokens : List PasswordResetToken
  sessions : List SessionRec
  deriving Repr, DecidableEq

/-- Configuration values used by the login flow (config.py, class Settings). -/
structure Settings where
  MAX_LOGIN_ATTEMPTS : Nat
  LOCKOUT_DURATION_MINUTES : Nat
  SESSION_EXPIRY_HOURS : Nat
  deriving Repr, DecidableEq

/-- The environment-variable defaults of config.py: MAX_LOGIN_ATTEMPTS 5,
LOCKOUT_DURATION_MINUTES 30, SESSION_EXPIRY_HOURS 24. -/
def defaultSettings : Settings :=
  { MAX_LOGIN_ATTEMPTS := 5, LOCKOUT_DURATION_MINUTES := 30, SESSION_EXPIRY_HOURS := 24 }

/-- One constructor per distinct ValueError message of auth_service.py. -/
inductive AuthErr where
  /-- Invalid email or password (user missing, or password mismatch below the lock threshold) -/
  | invalidCredentials
  /-- Please verify your email before logging in -/
  | emailNotVerified
  /-- Account is locked until the given time (pre-existing lock) -/
  | accountLocked (lockedUntil : Nat)
  /-- Account locked due to too many failed login attempts (lock triggered by this call) -/
  | accountLockedJustNow (lockedUntil : Nat)
  /-- Invalid verification token -/
  | invalidToken
  /-- Verification token already used -/
  | tokenAlreadyUsed
  /-- Verification token has expired -/
  | tokenExpired
  /-- Invalid password reset token -/
  | invalidResetToken
  /-- Password reset token already used -/
  | resetTokenAlreadyUsed
  /-- Password reset token has expired -/
  | resetTokenExpired
  /-- Password does not meet security requirements -/
  | weakPassword
  /-- User not found (internal) -/
  | userNotFound
  deriving Repr, DecidableEq

/-- ASCII character class of the regex [A-Z] in password_service.py. -/
def isAsciiUpper (c : Char) : Bool := decide ('A' ≤ c) && decide (c ≤ 'Z')

/-- ASCII character class of the regex [a-z] in password_service.py. -/
def isAsciiLower (c : Char) : Bool := decide ('a' ≤ c) && decide (c ≤ 'z')

/-- Character class of the regex backslash-d in password_service.py (ASCII digits). -/
def isAsciiDigit (c : Char) : Bool := decide ('0' ≤ c) && decide (c ≤ '9')

/-- The punctuation set of the special-character regex in
PasswordService.validate_strength. -/
def specialChars : List Char :=
  ['!', '@', '#', '$', '%', '^', '&', '*', '(', ')', '-', '_', '=', '+',
   '[', ']', '\x7b', '\x7d', ';', ':', ',', '.', '<', '>', '?', '/']

/-- PasswordService.validate_strength (password_service.py, lines 44-73):
minimum length 8, at least one uppercase, one lowercase, one digit, one
special character; early return false on the first failing check. -/
def validate_strength (password : String) : Bool :=
  if password.length < 8 then false
  else if !(password.data.any isAsciiUpper) then false
  else if !(password.data.any isAsciiLower) then false
  else if !(password.data.any isAsciiDigit) then false
  else if !(password.data.any (fun c => specialChars.contains c)) then false
  else true

/-- The strength policy exactly as the specification words it: length at
least 8 and at least one character of each required class, the symbol drawn
from the defined punctuation set. -/
def meetsStrengthPolicy (p : String) : Prop :=
  8 ≤ p.length ∧
  (∃ c ∈ p.data, isAsciiUpper c = true) ∧
  (∃ c ∈ p.data, isAsciiLower c = true) ∧
  (∃ c ∈ p.data, isAsciiDigit c = true) ∧
  (∃ c ∈ p.data, c ∈ specialChars)

/-- Python str.lower, modelled characterwise (ASCII case folding; the emails
in play are ASCII). -/
def lower (s : String) : String := String.mk (s.data.map Char.toLower)

/-- Committing a mutated ORM User object: the row with the same primary key
is replaced. -/
def DB.updateUser (db : DB) (u : User) : DB :=
  { db with users := db.users.map (fun v => if v.id == u.id then u else v) }

/-- Committing a mutated ORM VerificationToken object. -/
def DB.updateVerificationToken (db : DB) (t : VerificationToken) : DB :=
  { db with verification_tokens :=
      db.verification_tokens.map (fun v => if v.id == t.id then t else v) }

/-- Committing a mutated ORM PasswordResetToken object. -/
def DB.updatePasswordResetToken (db : DB) (t : PasswordResetToken) : DB :=
  { db with password_reset_tokens :=
      db.password_reset_tokens.map (fun v => if v.id == t.id then t else v) }

/-- Query db.query(User).filter(User.email == email).first(). -/
def DB.findUserByEmail (db : DB) (email : String) : Option User :=
  db.users.find? (fun u => u.email == email)

/-- Query db.query(User).filter(User.id == user_id).first(). -/
def DB.findUserById (db : DB) (user_id : String) : Option User :=
  db.users.find? (fun u => u.id == user_id)

/-- The dict returned by AuthService.login on success (auth_service.py,
lines 361-369): session token, session expiry, and the public user fields. -/
structure LoginOk where
  session_token : String
  expires_at : Nat
  user_id : String
  user_email : String
  user_email_verified : Bool
  deriving Repr, DecidableEq

/-- Continuation of AuthService.login from the password check on
(auth_service.py, lines 301-369).  The db argument already contains the
lazy-unlock commit when that branch was taken, and user is the current ORM
object.  The parameters sid and tok stand for the fresh uuid4 session id and
the jwt_service-generated session token. -/
def loginVerifyPassword (cfg : Settings) (pwdVerify : String → String → Bool)
    (sid tok : String) (now : Nat) (db : DB) (user : User) (password : String) :
    Except AuthErr LoginOk × DB :=
  if pwdVerify password user.password_hash = false then
    let user := { user with
      failed_login_attempts := user.failed_login_attempts + 1,
      last_failed_login := some now }
    if cfg.MAX_LOGIN_ATTEMPTS ≤ user.failed_login_attempts then
      let user := { user with
        is_locked := true,
        locked_until := some (now + cfg.LOCKOUT_DURATION_MINUTES) }
      (.error (.accountLockedJustNow (now + cfg.LOCKOUT_DURATION_MINUTES)),
        db.updateUser user)
    else
      (.error .invalidCredentials, db.updateUser user)
  else
    let user := { user with failed_login_attempts := 0, last_login := some now }
    let session : SessionRec :=
      { id := sid, user_id := user.id, token := tok, is_active := true,
        expires_at := now + cfg.SESSION_EXPIRY_HOURS * 60, created_at := now }
    let db := db.updateUser user
    ( .ok { session_token := tok, expires_at := session.expires_at,
            user_id := user.id, user_email := user.email,
            user_email_verified := user.email_verified },
      { db with sessions := db.sessions ++ [session] } )

/-- AuthService.login (auth_service.py, lines 240-369): normalize the email,
look the user up, check email_verified, check the lock (with lazy unlock when
locked_until is null or has elapsed), then verify the password. -/
def login (cfg : Settings) (pwdVerify : String → String → Bool)
    (sid tok : String) (now : Nat) (db : DB) (email password : String) :
    Except AuthErr LoginOk × DB :=
  let email := lower email
  match db.findUserByEmail email with
  | none => (.error .invalidCredentials, db)
  | some user =>
    if user.email_verified = false then (.error .emailNotVerified, db)
    else if user.is_locked then
      match user.locked_until with
      | some t =>
        if now < t then (.error (.accountLocked t), db)
        else
          let user := { user with
            is_locked := false, locked_until := none, failed_login_attempts := 0 }
          loginVerifyPassword cfg pwdVerify sid tok now (db.updateUser user) user password
      | none =>
        let user := { user with
          is_locked := false, locked_until := none, failed_login_attempts := 0 }
        loginVerifyPassword cfg pwdVerify sid tok now (db.updateUser user) user password
    else
      loginVerifyPassword cfg pwdVerify sid tok now db user password

/-- AuthService.verify_email (auth_service.py, lines 121-192).  Checks run in
the order existence, already-used, expired; on success the token is marked
used and the owning user's email_verified is set, committed together.  When
the owning user row is missing the ValueError is raised before commit, so the
DB is unchanged. -/
def verify_email (now : Nat) (db : DB) (token : String) : Except AuthErr User × DB :=
  match db.verification_tokens.find? (fun t => t.token == token) with
  | none => (.error .invalidToken, db)
  | some vt =>
    if vt.is_used then (.error .tokenAlreadyUsed, db)
    else if now > vt.expires_at then (.error .tokenExpired, db)
    else
      let vt := { vt with is_used := true, used_at := some now }
      match db.findUserById vt.user_id with
      | none => (.error .userNotFound, db)
      | some user =>
        let user := { user with email_verified := true }
        let db := (db.updateVerificationToken vt).updateUser user
        (.ok user, db)

/-- Default VERIFICATION_TOKEN_EXPIRY_HOURS of config.py. -/
def VERIFICATION_TOKEN_EXPIRY_HOURS : Nat := 24

/-- Default RESET_TOKEN_EXPIRY_HOURS of config.py. -/
def RESET_TOKEN_EXPIRY_HOURS : Nat := 1

/-- AuthService.resend_verification (auth_service.py, lines 194-238).
Returns the message dict's message string together with the new DB; newId and
newToken stand for the fresh uuid4 id and generated token value. -/
def resend_verification (newId newToken : String) (now : Nat) (db : DB)
    (email : String) : String × DB :=
  let email := lower email
  match db.findUserByEmail email with
  | none =>
    ("If the email exists and is not verified, a new verification email has been sent.", db)
  | some user =>
    if user.email_verified then ("Email already verified", db)
    else
      let vt : VerificationToken :=
        { id := newId, user_id := user.id, token := newToken,
          expires_at := now + VERIFICATION_TOKEN_EXPIRY_HOURS * 60,
          is_used := false, used_at := none }
      ("Verification email sent",
        { db with verification_tokens := db.verification_tokens ++ [vt] })

/-- AuthService.request_password_reset (auth_service.py, lines 395-438). -/
def request_password_reset (newId newToken : String) (now : Nat) (db : DB)
    (email : String) : String × DB :=
  let email := lower email
  match db.findUserByEmail email with
  | none =>
    ("If the email exists, a password reset link has been sent.", db)
  | some user =>
    let rt : PasswordResetToken :=
      { id := newId, user_id := user.id, token := newToken, is_used := false,
        used_at := none, expires_at := now + RESET_TOKEN_EXPIRY_HOURS * 60 }
    ("If the email exists, a password reset link has been sent.",
      { db with password_reset_tokens := db.password_reset_tokens ++ [rt] })

/-- AuthService.reset_password (auth_service.py, lines 440-505).  pwdHash
stands for password_service.hash_password (passlib argon2). -/
def reset_password (pwdHash : String → String) (now : Nat) (db : DB)
    (token new_password : String) : Except AuthErr String × DB :=
  match db.password_reset_tokens.find? (fun t => t.token == token) with
  | none => (.error .invalidResetToken, db)
  | some rt =>
    if rt.is_used then (.error .resetTokenAlreadyUsed, db)
    else if now > rt.expires_at then (.error .resetTokenExpired, db)
    else if validate_strength new_password = false then (.error .weakPassword, db)
    else
      match db.findUserById rt.user_id with
      | none => (.error .userNotFound, db)
      | some user =>
        let user := { user with password_hash := pwdHash new_password }
        let rt := { rt with is_used := true, used_at := some now }
        let db := (db.updateUser user).updatePasswordResetToken rt
        let deactivate : SessionRec → SessionRec :=
          fun s => if s.user_id == user.id then { s with is_active := false } else s
        let db := { db with sessions := db.sessions.map deactivate }
        (.ok ("Password reset successful. Please log in with your new password."), db)

/-- Names of the methods the class AuthService defines (auth_service.py,
lines 21-505, the def statements of the class body).  There is no logout
method among them. -/
def authServiceMethods : List String :=
  ["__init__", "register_user", "verify_email", "resend_verification", "login",
   "get_user_by_email", "get_user_by_id", "request_password_reset", "reset_password"]

/-- Helper for the model of Python str.startswith: does the first character
list start with the second one. -/
def charsStartWith : List Char → List Char → Bool
  | _, [] => true
  | [], _ :: _ => false
  | c :: cs, d :: ds => c == d && charsStartWith cs ds

/-- Python str.startswith, modelled on the character lists. -/
def strStartsWith (s pat : String) : Bool := charsStartWith s.data pat.data

/-- Outcome of a FastAPI route handler call, as observed by the client. -/
inductive RouteOutcome where
  | ok (message : String)
  | httpError (statusCode : Nat) (detail : String)
  | uncaughtException (exc : String)
  deriving Repr, DecidableEq

/-- The logout route handler (api/routes/auth.py, lines 325-369).  After the
Bearer-prefix check it evaluates auth_service.logout(session_token); the
class AuthService defines no logout attribute (see authServiceMethods), so
the attribute lookup raises AttributeError, which the except ValueError
clause of the handler does not catch, for every request and every database
state. -/
def route_logout (_db : DB) (authorization : String) : RouteOutcome :=
  if !(strStartsWith authorization ("Bearer ")) then
    .httpError 401 ("Invalid authorization header format")
  else
    .uncaughtException ("AttributeError")

/-! Helper lemmas about the keyed row-replacement commits. -/

/-- Replacing the row keyed like the first match of a predicate leaves the key
list of the table unchanged. -/
theorem map_key_update {α : Type} (key : α → String) (l : List α) (x' : α) :
    (l.map (fun v => if key v == key x' then x' else v)).map key = l.map key := by
  induction l with
  | nil => rfl
  | cons a l ih =>
    simp only [List.map_cons, ih, List.cons.injEq, and_true]
    by_cases h : key a == key x'
    · rw [if_pos h]
      exact (eq_of_beq h).symm
    · rw [if_neg h]

/-- When keys are pairwise distinct, committing a replacement row whose key
matches the first row satisfying a predicate makes that replacement the first
match, provided the replacement still satisfies the predicate. -/
theorem find?_map_update {α : Type} (key : α → String) (p : α → Bool)
    (l : List α) (x x' : α)
    (hfind : l.find? p = some x) (hnodup : (l.map key).Nodup)
    (hp : p x' = true) (hkey : key x' = key x) :
    (l.map (fun v => if key v == key x' then x' else v)).find? p = some x' := by
  induction l with
  | nil => simp at hfind
  | cons a l ih =>
    simp only [List.map_cons, List.nodup_cons] at hnodup
    by_cases ha : p a = true
    · rw [List.find?_cons_of_pos _ ha] at hfind
      injection hfind with hax
      subst hax
      rw [List.map_cons, if_pos (by simp [hkey])]
      exact List.find?_cons_of_pos _ hp
    · rw [List.find?_cons_of_neg _ (by simpa using ha)] at hfind
      have hxl : x ∈ l := List.mem_of_find?_eq_some hfind
      have hka : ¬ (key a == key x') := by
        intro h
        rw [hkey] at h
        exact hnodup.1 ((eq_of_beq h) ▸ List.mem_map_of_mem key hxl)
      rw [List.map_cons, if_neg hka, List.find?_cons_of_neg _ (by simpa using ha)]
      exact ih hfind hnodup.2

/-! Concrete fixtures for witnesses and counterexamples. -/

/-- A verified, unlocked account. -/
def alice : User :=
  { id := "u1", email := "alice@example.com", password_hash := "hash-old",
    email_verified := true, is_active := true, is_locked := false,
    locked_until := none, failed_login_attempts := 0, last_failed_login := none,
    last_login_at := none, last_login := none }

/-- The empty database. -/
def emptyDB : DB :=
  { users := [], verification_tokens := [], password_reset_tokens := [], sessions := [] }

/-- A database holding exactly the account alice. -/
def dbAlice : DB := { emptyDB with users := [alice] }

/-- A database holding alice and one active session of hers. -/
def dbAliceSession : DB :=
  { dbAlice with sessions :=
      [{ id := "s1", user_id := "u1", token := "sometoken", is_active := true,
         expires_at := 100000, created_at := 0 }] }

/-- An unverified account owning a pending verification token. -/
def bob : User :=
  { id := "u2", email := "bob@example.com", password_hash := "hash-b",
    email_verified := false, is_active := true, is_locked := false,
    locked_until := none, failed_login_attempts := 0, last_failed_login := none,
    last_login_at := none, last_login := none }

/-- A pending verification token of bob, expiring at minute 1440. -/
def verifTok : VerificationToken :=
  { id := "vt1", user_id := "u2", token := "vtok", expires_at := 1440,
    is_used := false, used_at := none }

/-- A database holding bob and his pending verification token. -/
def dbBobVerif : DB := { emptyDB with users := [bob], verification_tokens := [verifTok] }

/-- A verified, unlocked account with four failed login attempts on record. -/
def dave : User :=
  { id := "u3", email := "dave@example.com", password_hash := "pw",
    email_verified := true, is_active := true, is_locked := false,
    locked_until := none, failed_login_attempts := 4, last_failed_login := some 5,
    last_login_at := none, last_login := none }

/-- A database holding exactly dave. -/
def dbDave : DB := { emptyDB with users := [dave] }

/-- A verified account locked until minute 50 after five failed attempts. -/
def erin : User :=
  { id := "u5", email := "erin@example.com", password_hash := "pw",
    email_verified := true, is_active := true, is_locked := true,
    locked_until := some 50, failed_login_attempts := 5, last_failed_login := some 49,
    last_login_at := none, last_login := none }

/-- A database holding exactly erin. -/
def dbErin : DB := { emptyDB with users := [erin] }

/-- An unused password reset token of alice, expiring at minute 60. -/
def resetTok : PasswordResetToken :=
  { id := "prt1", user_id := "u1", token := "rtok", is_used := false,
    used_at := none, expires_at := 60 }

/-- A database holding alice, her reset token and two active sessions of hers. -/
def dbAliceReset : DB :=
  { dbAlice with
    password_reset_tokens := [resetTok],
    sessions :=
      [{ id := "s1", user_id := "u1", token := "tokA", is_active := true,
         expires_at := 100, created_at := 0 },
       { id := "s2", user_id := "u1", token := "tokB", is_active := true,
         expires_at := 200, created_at := 0 }] }

/-! Claim theorems. -/

/-- C9: PasswordService.validate_strength is a pure boolean check that holds
exactly when the password has length at least 8 and contains at least one
uppercase letter, one lowercase letter, one digit and one symbol of the
defined punctuation set; a password missing any one required class fails, and
SecurePass123! passes. -/
theorem C9_validate_strength_iff_policy :
    (∀ p : String, validate_strength p = true ↔ meetsStrengthPolicy p) ∧
    validate_strength "SecurePass123!" = true ∧
    validate_strength "securepass123!" = false ∧
    validate_strength "SECUREPASS123!" = false ∧
    validate_strength "SecurePass!!!!" = false ∧
    validate_strength "SecurePass1234" = false ∧
    validate_strength "Sp1!" = false := by
  refine ⟨fun p => ?_, by decide, by decide, by decide, by decide, by decide, by decide⟩
  unfold validate_strength meetsStrengthPolicy
  constructor
  · intro h
    split_ifs at h with h1 h2 h3 h4 h5
    simp only [Bool.not_eq_true, Bool.not_eq_false', List.any_eq_true] at h2 h3 h4 h5
    refine ⟨by omega, h2, h3, h4, ?_⟩
    simpa using h5
  · rintro ⟨hl, hu, hlo, hd, hs⟩
    have h1 : ¬ p.length < 8 := by omega
    have c2 : p.data.any isAsciiUpper = true := List.any_eq_true.mpr hu
    have c3 : p.data.any isAsciiLower = true := List.any_eq_true.mpr hlo
    have c4 : p.data.any isAsciiDigit = true := List.any_eq_true.mpr hd
    have c5 : p.data.any (fun c => specialChars.contains c) = true :=
      List.any_eq_true.mpr (by simpa using hs)
    simp [h1, c2, c3, c4, c5]
    exact hs

/-- C8: request_password_reset produces byte-identical success messages for an
email owned by an existing account and for an email owned by no account. -/
theorem C8_request_password_reset_uniform_message
    (newId₁ newToken₁ newId₂ newToken₂ : String) (now₁ now₂ : Nat)
    (db₁ db₂ : DB) (email₁ email₂ : String) (u : User)
    (h₁ : db₁.findUserByEmail (lower email₁) = some u)
    (h₂ : db₂.findUserByEmail (lower email₂) = none) :
    (request_password_reset newId₁ newToken₁ now₁ db₁ email₁).1 =
      (request_password_reset newId₂ newToken₂ now₂ db₂ email₂).1 := by
  unfold request_password_reset
  simp only [h₁, h₂]

/-- Witness for C8 at a concrete pair of databases and emails. -/
theorem C8_witness :
    dbAlice.findUserByEmail (lower "alice@example.com") = some alice ∧
    emptyDB.findUserByEmail (lower "bob@example.com") = none ∧
    (request_password_reset "t1" "tok1" 0 dbAlice "alice@example.com").1 =
      (request_password_reset "t2" "tok2" 5 emptyDB "bob@example.com").1 :=
  ⟨by decide, by decide,
    C8_request_password_reset_uniform_message "t1" "tok1" "t2" "tok2" 0 5
      dbAlice emptyDB "alice@example.com" "bob@example.com" alice
      (by decide) (by decide)⟩

/-- C4 (code bug): resend_verification answers a verified account with the
message Email already verified but an absent account with the generic
message, so the two cases are distinguishable to the caller. -/
theorem C4_resend_verification_distinguishable :
    (resend_verification "t1" "tok1" 0 dbAlice "alice@example.com").1 =
      "Email already verified" ∧
    (resend_verification "t1" "tok1" 0 emptyDB "alice@example.com").1 =
      "If the email exists and is not verified, a new verification email has been sent." ∧
    (resend_verification "t1" "tok1" 0 dbAlice "alice@example.com").1 ≠
      (resend_verification "t1" "tok1" 0 emptyDB "alice@example.com").1 := by
  decide

/-- C5 (code bug): the class AuthService defines no logout method, so the
logout route, even when called with the token of an existing active session,
ends in an uncaught AttributeError rather than deactivating the session or
failing InvalidSession. -/
theorem C5_logout_method_missing :
    authServiceMethods.contains ("logout") = false ∧
    route_logout dbAliceSession ("Bearer sometoken") =
      RouteOutcome.uncaughtException ("AttributeError") := by
  decide

/-- C1: against the default settings (max 5 attempts, 30 minute lockout), a
wrong-password login on a verified, unlocked account increments the failed
counter and stamps last_failed_login; below the threshold it fails
invalidCredentials, on the attempt that reaches 5 it locks the account until
now + 30 and fails accountLockedJustNow, and from the resulting state any
further attempt before that time, whatever the password, fails
accountLocked. -/
theorem C1_login_lockout
    (pwdVerify : String → String → Bool) (sid tok : String)
    (now : Nat) (db : DB) (email password : String) (u : User)
    (hnodup : (db.users.map User.id).Nodup)
    (hfind : db.findUserByEmail (lower email) = some u)
    (hver : u.email_verified = true)
    (hunlocked : u.is_locked = false)
    (hmismatch : pwdVerify password u.password_hash = false) :
    (u.failed_login_attempts + 1 < 5 →
      (login defaultSettings pwdVerify sid tok now db email password).1 =
        Except.error AuthErr.invalidCredentials ∧
      (login defaultSettings pwdVerify sid tok now db email password).2.findUserByEmail (lower email) =
        some { u with failed_login_attempts := u.failed_login_attempts + 1,
                      last_failed_login := some now }) ∧
    (u.failed_login_attempts + 1 = 5 →
      (login defaultSettings pwdVerify sid tok now db email password).1 =
        Except.error (AuthErr.accountLockedJustNow (now + 30)) ∧
      (login defaultSettings pwdVerify sid tok now db email password).2.findUserByEmail (lower email) =
        some { u with failed_login_attempts := u.failed_login_attempts + 1,
                      last_failed_login := some now, is_locked := true,
                      locked_until := some (now + 30) } ∧
      (∀ password₂ now₂, now₂ < now + 30 →
        (login defaultSettings pwdVerify sid tok now₂
          (login defaultSettings pwdVerify sid tok now db email password).2 email password₂).1 =
          Except.error (AuthErr.accountLocked (now + 30)))) := by
  have hfind' : db.users.find? (fun v => v.email == lower email) = some u := hfind
  have hp : (u.email == lower email) = true := by
    have h0 := List.find?_some hfind'
    simpa using h0
  constructor
  · intro hlt
    have hcond : ¬ (5 ≤ u.failed_login_attempts + 1) := by omega
    have hres : login defaultSettings pwdVerify sid tok now db email password =
        (Except.error AuthErr.invalidCredentials,
          db.updateUser { u with failed_login_attempts := u.failed_login_attempts + 1, last_failed_login := some now }) := by
      unfold login loginVerifyPassword
      simp [hfind, hver, hunlocked, hmismatch, hcond, defaultSettings]
    rw [hres]
    refine ⟨rfl, ?_⟩
    simp only [DB.updateUser, DB.findUserByEmail]
    exact find?_map_update User.id (fun v => v.email == lower email) db.users u
      { u with failed_login_attempts := u.failed_login_attempts + 1, last_failed_login := some now }
      hfind' hnodup (by simpa using hp) rfl
  · intro heq
    have hcond : 5 ≤ u.failed_login_attempts + 1 := by omega
    have hres : login defaultSettings pwdVerify sid tok now db email password =
        (Except.error (AuthErr.accountLockedJustNow (now + 30)),
          db.updateUser { u with failed_login_attempts := u.failed_login_attempts + 1, last_failed_login := some now, is_locked := true, locked_until := some (now + 30) }) := by
      unfold login loginVerifyPassword
      simp [hfind, hver, hunlocked, hmismatch, hcond, defaultSettings]
    have hfindL : (db.updateUser { u with failed_login_attempts := u.failed_login_attempts + 1, last_failed_login := some now, is_locked := true, locked_until := some (now + 30) }).findUserByEmail (lower email) = some { u with failed_login_attempts := u.failed_login_attempts + 1, last_failed_login := some now, is_locked := true, locked_until := some (now + 30) } := by
      simp only [DB.updateUser, DB.findUserByEmail]
      exact find?_map_update User.id (fun v => v.email == lower email) db.users u
        { u with failed_login_attempts := u.failed_login_attempts + 1, last_failed_login := some now, is_locked := true, locked_until := some (now + 30) }
        hfind' hnodup (by simpa using hp) rfl
    refine ⟨by rw [hres], by rw [hres]; exact hfindL, ?_⟩
    intro password₂ now₂ hlt₂
    rw [hres]
    unfold login
    simp only [hfindL]
    simp [hver, hlt₂]

/-- Witness for C1: dave has four failed attempts, so a fifth mismatch at
minute 10 locks him until minute 40, and a correct-password attempt at
minute 11 still fails accountLocked. -/
theorem C1_witness :
    dave.failed_login_attempts + 1 = 5 ∧
    (login defaultSettings (fun p h => p == h) "sd" "tkd" 10 dbDave "dave@example.com" "wrong").1 =
      Except.error (AuthErr.accountLockedJustNow 40) ∧
    (login defaultSettings (fun p h => p == h) "sd" "tkd" 11
      (login defaultSettings (fun p h => p == h) "sd" "tkd" 10 dbDave "dave@example.com" "wrong").2
      "dave@example.com" "pw").1 = Except.error (AuthErr.accountLocked 40) :=
  let T := C1_login_lockout (fun p h => p == h) "sd" "tkd" 10 dbDave "dave@example.com"
    "wrong" dave (by decide) (by decide) (by decide) (by decide) (by decide)
  ⟨by decide, (T.2 (by decide)).1, (T.2 (by decide)).2.2 "pw" 11 (by decide)⟩

/-- C2: a login on a locked, verified account whose locked_until is null or
has elapsed clears the lock state in the same call and goes on to evaluate
the password, so a correct password succeeds, the final stored account is
unlocked with the failed counter at 0, and an active session is created. -/
theorem C2_lazy_unlock
    (pwdVerify : String → String → Bool) (sid tok : String)
    (now : Nat) (db : DB) (email password : String) (u : User)
    (hfind : db.findUserByEmail (lower email) = some u)
    (hver : u.email_verified = true)
    (hlocked : u.is_locked = true)
    (helapsed : u.locked_until = none ∨ ∃ T, u.locked_until = some T ∧ ¬ now < T)
    (hmatch : pwdVerify password u.password_hash = true) :
    (login defaultSettings pwdVerify sid tok now db email password).1 =
      Except.ok { session_token := tok, expires_at := now + 24 * 60, user_id := u.id,
                  user_email := u.email, user_email_verified := true } ∧
    (∀ v ∈ (login defaultSettings pwdVerify sid tok now db email password).2.users,
      v.id = u.id →
        v.is_locked = false ∧ v.locked_until = none ∧ v.failed_login_attempts = 0) ∧
    (∃ s ∈ (login defaultSettings pwdVerify sid tok now db email password).2.sessions,
      s.user_id = u.id ∧ s.token = tok ∧ s.is_active = true ∧
      s.expires_at = now + 24 * 60) := by
  have hres : login defaultSettings pwdVerify sid tok now db email password =
      (Except.ok { session_token := tok, expires_at := now + 24 * 60, user_id := u.id,
                   user_email := u.email, user_email_verified := true },
        { users := (db.users.map (fun v => if v.id == u.id then { id := u.id, email := u.email, password_hash := u.password_hash, email_verified := true, is_active := u.is_active, is_locked := false, locked_until := none, failed_login_attempts := 0, last_failed_login := u.last_failed_login, last_login_at := u.last_login_at, last_login := u.last_login } else v)).map (fun v => if v.id == u.id then { id := u.id, email := u.email, password_hash := u.password_hash, email_verified := true, is_active := u.is_active, is_locked := false, locked_until := none, failed_login_attempts := 0, last_failed_login := u.last_failed_login, last_login_at := u.last_login_at, last_login := some now } else v),
          verification_tokens := db.verification_tokens,
          password_reset_tokens := db.password_reset_tokens,
          sessions := db.sessions ++ [{ id := sid, user_id := u.id, token := tok, is_active := true, expires_at := now + 24 * 60, created_at := now }] }) := by
    rcases helapsed with hTnone | ⟨T, hT, hnlt⟩
    · unfold login loginVerifyPassword
      simp [hfind, hver, hlocked, hTnone, hmatch, defaultSettings, DB.updateUser]
    · unfold login loginVerifyPassword
      simp [hfind, hver, hlocked, hT, hnlt, hmatch, defaultSettings, DB.updateUser]
  rw [hres]
  refine ⟨rfl, ?_, ?_⟩
  · intro v hv hid
    rcases List.mem_map.mp hv with ⟨w, hw, hfw⟩
    by_cases hcase : w.id == u.id
    · rw [if_pos hcase] at hfw
      rw [← hfw]
      exact ⟨rfl, rfl, rfl⟩
    · rw [if_neg hcase] at hfw
      rw [← hfw] at hid
      exact absurd (beq_iff_eq.mpr hid) hcase
  · refine ⟨{ id := sid, user_id := u.id, token := tok, is_active := true, expires_at := now + 24 * 60, created_at := now }, ?_, rfl, rfl, rfl, rfl⟩
    simp

/-- Witness for C2: erin is locked until minute 50 with five failed attempts;
at minute 60 her correct password logs her in and the stored account ends
unlocked with a zero counter. -/
theorem C2_witness :
    erin.is_locked = true ∧ erin.locked_until = some 50 ∧
    (login defaultSettings (fun p h => p == h) "se" "tke" 60 dbErin "erin@example.com" "pw").1 =
      Except.ok { session_token := "tke", expires_at := 60 + 24 * 60, user_id := erin.id,
                  user_email := erin.email, user_email_verified := true } ∧
    (∀ v ∈ (login defaultSettings (fun p h => p == h) "se" "tke" 60 dbErin "erin@example.com" "pw").2.users,
      v.id = erin.id →
        v.is_locked = false ∧ v.locked_until = none ∧ v.failed_login_attempts = 0) :=
  let T := C2_lazy_unlock (fun p h => p == h) "se" "tke" 60 dbErin "erin@example.com"
    "pw" erin (by decide) (by decide) (by decide) (Or.inr ⟨50, by decide, by decide⟩) (by decide)
  ⟨by decide, by decide, T.1, T.2.1⟩

/-- C3: resetting the password with an existing, unused, unexpired token and a
strong new password succeeds, stores the hash of the new password on the
owning account, marks the token used at now, and leaves every session of that
account inactive. -/
theorem C3_reset_password_invalidates_sessions
    (pwdHash : String → String) (now : Nat) (db : DB) (token new_password : String)
    (rt : PasswordResetToken) (u : User)
    (hfind : db.password_reset_tokens.find? (fun t => t.token == token) = some rt)
    (hunused : rt.is_used = false)
    (hunexp : ¬ now > rt.expires_at)
    (hstrong : validate_strength new_password = true)
    (huser : db.findUserById rt.user_id = some u) :
    (reset_password pwdHash now db token new_password).1 =
      Except.ok ("Password reset successful. Please log in with your new password.") ∧
    (∀ v ∈ (reset_password pwdHash now db token new_password).2.users,
      v.id = u.id → v.password_hash = pwdHash new_password) ∧
    (∀ t2 ∈ (reset_password pwdHash now db token new_password).2.password_reset_tokens,
      t2.id = rt.id → t2.is_used = true ∧ t2.used_at = some now) ∧
    (∀ s ∈ (reset_password pwdHash now db token new_password).2.sessions,
      s.user_id = u.id → s.is_active = false) := by
  have hsess : ∀ dbx : DB, ∀ ux rtx,
      (((dbx.updateUser ux).updatePasswordResetToken rtx).sessions) = dbx.sessions := by
    intro dbx ux rtx
    rfl
  have hres : reset_password pwdHash now db token new_password =
      (Except.ok ("Password reset successful. Please log in with your new password."),
        { ((db.updateUser { u with password_hash := pwdHash new_password }).updatePasswordResetToken
            { rt with is_used := true, used_at := some now }) with
          sessions := db.sessions.map (fun s =>
            if s.user_id == u.id then { s with is_active := false } else s) }) := by
    unfold reset_password
    simp [hfind, hunused, hunexp, hstrong, huser, hsess]
  rw [hres]
  refine ⟨rfl, ?_, ?_, ?_⟩
  · intro v hv hid
    simp only [DB.updatePasswordResetToken, DB.updateUser] at hv
    rcases List.mem_map.mp hv with ⟨w, hw, hfw⟩
    by_cases hcase : w.id == ({ u with password_hash := pwdHash new_password } : User).id
    · rw [if_pos hcase] at hfw
      rw [← hfw]
    · rw [if_neg hcase] at hfw
      rw [← hfw] at hid
      exact absurd (beq_iff_eq.mpr hid) hcase
  · intro t2 ht2 hid
    simp only [DB.updatePasswordResetToken, DB.updateUser] at ht2
    rcases List.mem_map.mp ht2 with ⟨w, hw, hfw⟩
    by_cases hcase : w.id == ({ rt with is_used := true, used_at := some now } : PasswordResetToken).id
    · rw [if_pos hcase] at hfw
      rw [← hfw]
      exact ⟨rfl, rfl⟩
    · rw [if_neg hcase] at hfw
      rw [← hfw] at hid
      exact absurd (beq_iff_eq.mpr hid) hcase
  · intro s hs hsid
    rcases List.mem_map.mp hs with ⟨w, hw, hfw⟩
    by_cases hcase : w.user_id == u.id
    · rw [if_pos hcase] at hfw
      rw [← hfw]
    · rw [if_neg hcase] at hfw
      rw [← hfw] at hsid
      exact absurd (beq_iff_eq.mpr hsid) hcase

/-- Witness for C3: alice resets her password with her unused token rtok at
minute 0; both of her active sessions end inactive. -/
theorem C3_witness :
    resetTok.is_used = false ∧
    validate_strength "NewSecure123!" = true ∧
    (∀ s ∈ (reset_password (fun p => p) 0 dbAliceReset "rtok" "NewSecure123!").2.sessions,
      s.user_id = alice.id → s.is_active = false) :=
  ⟨by decide, by decide,
    (C3_reset_password_invalidates_sessions (fun p => p) 0 dbAliceReset "rtok" "NewSecure123!"
      resetTok alice (by decide) (by decide) (by decide) (by decide) (by decide)).2.2.2⟩

/-- C6 (code bug): a successful login of alice at minute 7 returns the session
data and resets the failed counter, and an active session is recorded, but
the persisted column last_login_at is left unchanged (still none): only the
unmapped Python attribute last_login receives the timestamp, so the
last_login_at update the claim describes never reaches the users table. -/
theorem C6_login_last_login_at_unchanged :
    (login defaultSettings (fun p h => p == h) "s1" "tk" 7 dbAlice "alice@example.com" "hash-old").1 =
      Except.ok { session_token := "tk", expires_at := 7 + 24 * 60, user_id := "u1",
                  user_email := "alice@example.com", user_email_verified := true } ∧
    (∀ v ∈ (login defaultSettings (fun p h => p == h) "s1" "tk" 7 dbAlice "alice@example.com" "hash-old").2.users,
      v.id = "u1" →
        v.failed_login_attempts = 0 ∧ v.last_login = some 7 ∧ v.last_login_at = none) ∧
    (∃ s ∈ (login defaultSettings (fun p h => p == h) "s1" "tk" 7 dbAlice "alice@example.com" "hash-old").2.sessions,
      s.user_id = "u1" ∧ s.token = "tk" ∧ s.is_active = true ∧ s.expires_at = 7 + 24 * 60) := by
  refine ⟨rfl, by decide, by decide⟩

/-- C7: verify_email checks existence, then already-used, then expiry, in that
order, so a used token fails tokenAlreadyUsed even when it is also expired;
on the happy path the token is marked used at now, the owning account becomes
verified, and a second call on the same token, at any later time, fails
tokenAlreadyUsed. -/
theorem C7_verify_email_check_order
    (now now₂ : Nat) (db : DB) (token : String)
    (hnodup : (db.verification_tokens.map VerificationToken.id).Nodup) :
    (db.verification_tokens.find? (fun t => t.token == token) = none →
      verify_email now db token = (Except.error AuthErr.invalidToken, db)) ∧
    (∀ vt, db.verification_tokens.find? (fun t => t.token == token) = some vt →
      vt.is_used = true →
      verify_email now db token = (Except.error AuthErr.tokenAlreadyUsed, db)) ∧
    (∀ vt, db.verification_tokens.find? (fun t => t.token == token) = some vt →
      vt.is_used = false → now > vt.expires_at →
      verify_email now db token = (Except.error AuthErr.tokenExpired, db)) ∧
    (∀ vt u, db.verification_tokens.find? (fun t => t.token == token) = some vt →
      vt.is_used = false → ¬ now > vt.expires_at →
      db.findUserById vt.user_id = some u →
      (verify_email now db token).1 = Except.ok { u with email_verified := true } ∧
      (∀ t2 ∈ (verify_email now db token).2.verification_tokens,
        t2.id = vt.id → t2.is_used = true ∧ t2.used_at = some now) ∧
      (∀ v ∈ (verify_email now db token).2.users,
        v.id = vt.user_id → v.email_verified = true) ∧
      (verify_email now₂ (verify_email now db token).2 token).1 =
        Except.error AuthErr.tokenAlreadyUsed) := by
  refine ⟨?_, ?_, ?_, ?_⟩
  · intro hnone
    unfold verify_email
    simp [hnone]
  · intro vt hfind hused
    unfold verify_email
    simp [hfind, hused]
  · intro vt hfind hused hexp
    unfold verify_email
    simp [hfind, hused, hexp]
  · intro vt u hfind hused hexp huser
    have huid : u.id = vt.user_id := by
      have := List.find?_some huser
      exact beq_iff_eq.mp this
    have hres : verify_email now db token =
        (Except.ok { u with email_verified := true },
          ((db.updateVerificationToken { vt with is_used := true, used_at := some now }).updateUser
            { u with email_verified := true })) := by
      unfold verify_email
      simp [hfind, hused, hexp, huser]
    rw [hres]
    refine ⟨rfl, ?_, ?_, ?_⟩
    · intro t2 ht2 hid
      simp only [DB.updateUser, DB.updateVerificationToken] at ht2
      rcases List.mem_map.mp ht2 with ⟨w, hw, hfw⟩
      by_cases hcase : w.id == ({ vt with is_used := true, used_at := some now } : VerificationToken).id
      · rw [if_pos hcase] at hfw
        rw [← hfw]
        exact ⟨rfl, rfl⟩
      · rw [if_neg hcase] at hfw
        rw [← hfw] at hid
        exact absurd (beq_iff_eq.mpr hid) hcase
    · intro v hv hid
      simp only [DB.updateUser, DB.updateVerificationToken] at hv
      rcases List.mem_map.mp hv with ⟨w, hw, hfw⟩
      by_cases hcase : w.id == ({ u with email_verified := true } : User).id
      · rw [if_pos hcase] at hfw
        rw [← hfw]
      · rw [if_neg hcase] at hfw
        rw [← hfw] at hid
        rw [← huid] at hid
        exact absurd (beq_iff_eq.mpr hid) hcase
    · have hp : (fun t => t.token == token) ({ vt with is_used := true, used_at := some now } : VerificationToken) = true := by
        simpa using List.find?_some hfind
      have hfind₂ : (((db.updateVerificationToken { vt with is_used := true, used_at := some now }).updateUser
            { u with email_verified := true }).verification_tokens).find? (fun t => t.token == token) =
          some { vt with is_used := true, used_at := some now } := by
        simp only [DB.updateUser, DB.updateVerificationToken]
        exact find?_map_update VerificationToken.id (fun t => t.token == token)
          db.verification_tokens vt { vt with is_used := true, used_at := some now }
          hfind hnodup hp rfl
      unfold verify_email
      simp [hfind₂]

/-- Witness for C7: bob verifies his token vtok at minute 0 and becomes
verified; a repeat of the call at minute 99999 fails tokenAlreadyUsed. -/
theorem C7_witness :
    (dbBobVerif.verification_tokens.map VerificationToken.id).Nodup ∧
    ((verify_email 0 dbBobVerif "vtok").1 = Except.ok { bob with email_verified := true } ∧
     (∀ t2 ∈ (verify_email 0 dbBobVerif "vtok").2.verification_tokens,
       t2.id = verifTok.id → t2.is_used = true ∧ t2.used_at = some 0) ∧
     (∀ v ∈ (verify_email 0 dbBobVerif "vtok").2.users,
       v.id = verifTok.user_id → v.email_verified = true) ∧
     (verify_email 99999 (verify_email 0 dbBobVerif "vtok").2 "vtok").1 =
       Except.error AuthErr.tokenAlreadyUsed) :=
  ⟨by decide,
    (C7_verify_email_check_order 0 99999 dbBobVerif "vtok" (by decide)).2.2.2 verifTok bob
      (by decide) (by decide) (by decide) (by decide)⟩

/-- C10: a login call that fails because the account is absent, unverified, or
locked with locked_until still in the future leaves the database exactly as it
was and returns an error. -/
theorem C10_login_failure_frame
    (cfg : Settings) (pwdVerify : String → String → Bool) (sid tok : String)
    (now : Nat) (db : DB) (email password : String)
    (h : db.findUserByEmail (lower email) = none ∨
      (∃ u, db.findUserByEmail (lower email) = some u ∧ u.email_verified = false) ∨
      (∃ u t, db.findUserByEmail (lower email) = some u ∧ u.email_verified = true ∧
        u.is_locked = true ∧ u.locked_until = some t ∧ now < t)) :
    (login cfg pwdVerify sid tok now db email password).2 = db ∧
    ∃ e, (login cfg pwdVerify sid tok now db email password).1 = Except.error e := by
  unfold login
  rcases h with h | ⟨u, hfind, hver⟩ | ⟨u, t, hfind, hver, hlock, huntil, hlt⟩
  · exact ⟨by simp [h], AuthErr.invalidCredentials, by simp [h]⟩
  · exact ⟨by simp [hfind, hver], AuthErr.emailNotVerified, by simp [hfind, hver]⟩
  · exact ⟨by simp [hfind, hver, hlock, huntil, hlt], AuthErr.accountLocked t,
      by simp [hfind, hver, hlock, huntil, hlt]⟩

/-- Witness for C10 at the concrete absent-account case. -/
theorem C10_witness :
    (emptyDB.findUserByEmail (lower "ghost@example.com") = none ∨
      (∃ u, emptyDB.findUserByEmail (lower "ghost@example.com") = some u ∧ u.email_verified = false) ∨
      (∃ u t, emptyDB.findUserByEmail (lower "ghost@example.com") = some u ∧ u.email_verified = true ∧
        u.is_locked = true ∧ u.locked_until = some t ∧ (0 : Nat) < t)) ∧
    ((login defaultSettings (fun _ _ => false) "s1" "tk" 0 emptyDB "ghost@example.com" "pw").2 = emptyDB ∧
     ∃ e, (login defaultSettings (fun _ _ => false) "s1" "tk" 0 emptyDB "ghost@example.com" "pw").1 = Except.error e) :=
  ⟨Or.inl (by decide),
    C10_login_failure_frame defaultSettings (fun _ _ => false) "s1" "tk" 0 emptyDB
      "ghost@example.com" "pw" (Or.inl (by decide))⟩

end Auth
